import Mathlib

/-
Verification of the uniblox-ecommerce-store-api in-memory store and
checkout workflow, shallowly embedded in Lean 4.

Conventions of the embedding:
- Python dicts keyed by session id become association lists
  (`List (String × α)`) with first-match lookup and in-place update of the
  first matching key; every operation of the repository preserves key
  uniqueness, and first-match semantics coincides with dict semantics.
- Monetary values (Python float carrying exact 2-decimal amounts) are
  modelled as exact rationals.  Python `round(x, 2)` (round half to even)
  is modelled by `round2`.
- `uuid.uuid4()` order ids are modelled by a fresh-id counter
  `next_order_id` carried in the store; `datetime.now()` timestamps are a
  `now : Nat` argument; the random discount code drawn by
  `DiscountService.generate_discount_code` is a `fresh_code : String`
  argument.
- Raising `ValueError` (mapped by the HTTP router to 400) is modelled by
  `Except CheckoutError`; the store is threaded explicitly, and an
  operation that raises returns the store exactly as mutated so far, since
  mutations on the global repository persist across an exception.
- The pydantic field `UsedDiscount.discount_code` is declared `str` in the
  schema, but `mark_discount_code_used` populates it from
  `Order.discount_code`, which is `Optional[str]`; the embedding carries
  the copied value as `Option String`.
- The `_users` map of the repository is not modelled: no verified claim
  touches it and no core operation reads it.
-/

/-- First-match lookup in an association list (Python `d.get(k)` / `k in d`). -/
def dictGet {α : Type} (m : List (String × α)) (k : String) : Option α :=
  match m with
  | [] => none
  | (k', v) :: rest => if k' = k then some v else dictGet rest k

/-- Update the first entry with key `k` to value `v`, appending a new entry
when the key is absent (Python `d[k] = v`). -/
def dictSet {α : Type} (m : List (String × α)) (k : String) (v : α) : List (String × α) :=
  match m with
  | [] => [(k, v)]
  | (k', v') :: rest => if k' = k then (k, v) :: rest else (k', v') :: dictSet rest k v

/-- Delete every entry with key `k` (Python `del d[k]`). -/
def dictErase {α : Type} (m : List (String × α)) (k : String) : List (String × α) :=
  m.filter (fun p => p.1 != k)

/-- Python `round` to an integer: round half to even. -/
def pyRound (x : ℚ) : ℤ :=
  let f := x.floor
  let frac := x - f
  if frac < 1/2 then f
  else if 1/2 < frac then f + 1
  else if f % 2 = 0 then f else f + 1

/-- Python `round(x, 2)`: round to 2 decimal places, half to even. -/
def round2 (x : ℚ) : ℚ := (pyRound (x * 100) : ℚ) / 100

section RatEval

attribute [local semireducible] Rat.add Rat.sub Rat.mul Rat.inv

theorem round2_zero : round2 0 = 0 := by decide

end RatEval

/-- Python truthiness of an `Optional[str]`: true iff present and non-empty. -/
def strTruthy : Option String → Bool
  | none => false
  | some s => s != ""

/-- app/models/schema.py `CartItem`. -/
structure CartItem where
  product_id : Nat
  name : String
  price : ℚ
  quantity : Nat
deriving DecidableEq

/-- app/models/schema.py `Order`. -/
structure Order where
  order_id : Nat
  items : List CartItem
  subtotal : ℚ
  discount_code : Option String
  discount_amount : ℚ
  discount_percent : ℚ
  total_amount : ℚ
  timestamp : Nat
deriving DecidableEq

/-- app/models/schema.py `UserOrder`. -/
structure UserOrder where
  order_count : Nat
  orders : List Order
deriving DecidableEq

/-- app/models/schema.py `UsedDiscount` (see header note on `discount_code`). -/
structure UsedDiscount where
  order_id : Nat
  discount_code : Option String
  discount_percent : ℚ
  discount_amount : ℚ
  timestamp : Nat
deriving DecidableEq

/-- app/models/schema.py `Discount`. -/
structure Discount where
  discount_code : String
  discount_percent : ℚ
deriving DecidableEq

/-- app/models/schema.py `UserDiscountData`. -/
structure UserDiscountData where
  available_discount : Option Discount
  used_discounts : List UsedDiscount
deriving DecidableEq

/-- app/models/schema.py `CheckoutResponse`. -/
structure CheckoutResponse where
  order_id : Nat
  subtotal : ℚ
  discount_applied : Bool
  discount_amount : ℚ
  total_amount : ℚ
  new_discount_code : Option String
  message : String
  timestamp : Nat
deriving DecidableEq

/-- app/models/schema.py `AdminStoreStatisticsResponse`. -/
structure AdminStoreStatisticsResponse where
  total_orders : Nat
  total_items_purchased : Nat
  average_order_value : ℚ
  total_purchase_amount : ℚ
  total_discount_amount : ℚ
  discount_utilization_rate : ℚ
  discount_codes : List String
deriving DecidableEq

/-- The mutable state of app/repositories/repository.py `UnibloxRepository`. -/
structure UnibloxRepository where
  carts : List (String × List CartItem)
  orders : List (String × UserOrder)
  discount_codes : List (String × UserDiscountData)
  next_order_id : Nat
deriving DecidableEq

namespace UnibloxRepository

/-- `UnibloxRepository.get_cart`. -/
def get_cart (session_id : String) (st : UnibloxRepository) : List CartItem :=
  (dictGet st.carts session_id).getD []

/-- The in-place loop body of `add_to_cart`: merge quantity into the first
line with the same product id, else append the new item. -/
def addItemToList (cart : List CartItem) (item : CartItem) : List CartItem :=
  match cart with
  | [] => [item]
  | c :: rest =>
    if c.product_id = item.product_id then
      { c with quantity := c.quantity + item.quantity } :: rest
    else
      c :: addItemToList rest item

/-- `UnibloxRepository.add_to_cart`. -/
def add_to_cart (session_id : String) (item : CartItem) (st : UnibloxRepository) :
    List CartItem × UnibloxRepository :=
  let cart := (dictGet st.carts session_id).getD []
  let cart' := addItemToList cart item
  (cart', { st with carts := dictSet st.carts session_id cart' })

/-- The in-place loop body of `update_cart_item`: set the quantity of the
first line with the given product id, `none` if absent. -/
def updateItemInList (cart : List CartItem) (product_id quantity : Nat) :
    Option (List CartItem) :=
  match cart with
  | [] => none
  | c :: rest =>
    if c.product_id = product_id then
      some ({ c with quantity := quantity } :: rest)
    else
      (updateItemInList rest product_id quantity).map (c :: ·)

/-- `UnibloxRepository.update_cart_item`. -/
def update_cart_item (session_id : String) (product_id quantity : Nat)
    (st : UnibloxRepository) : Option (List CartItem) × UnibloxRepository :=
  match dictGet st.carts session_id with
  | none => (none, st)
  | some cart =>
    match updateItemInList cart product_id quantity with
    | none => (none, st)
    | some cart' => (some cart', { st with carts := dictSet st.carts session_id cart' })

/-- `UnibloxRepository.remove_from_cart`: note that when the session has a
cart, the item list is filtered with no presence check. -/
def remove_from_cart (session_id : String) (product_id : Nat)
    (st : UnibloxRepository) : Option (List CartItem) × UnibloxRepository :=
  match dictGet st.carts session_id with
  | none => (none, st)
  | some cart =>
    let cart' := cart.filter (fun i => i.product_id != product_id)
    (some cart', { st with carts := dictSet st.carts session_id cart' })

/-- `UnibloxRepository.clear_cart`. -/
def clear_cart (session_id : String) (st : UnibloxRepository) : UnibloxRepository :=
  { st with carts := dictErase st.carts session_id }

/-- `UnibloxRepository.create_order`: returns `none` on an empty item list,
otherwise appends a fresh order and increments the session order count. -/
def create_order (session_id : String) (items : List CartItem) (subtotal : ℚ)
    (discount_code : Option String) (discount_amount total_amount discount_percent : ℚ)
    (now : Nat) (st : UnibloxRepository) : Option Order × UnibloxRepository :=
  if items.isEmpty then (none, st)
  else
    let order : Order :=
      { order_id := st.next_order_id, items := items, subtotal := subtotal,
        discount_code := discount_code, discount_amount := discount_amount,
        total_amount := total_amount, discount_percent := discount_percent,
        timestamp := now }
    let user_order := (dictGet st.orders session_id).getD ⟨0, []⟩
    let user_order' : UserOrder :=
      { order_count := user_order.order_count + 1, orders := user_order.orders ++ [order] }
    (some order,
     { st with orders := dictSet st.orders session_id user_order',
               next_order_id := st.next_order_id + 1 })

/-- `UnibloxRepository.mark_discount_code_used`: initializes empty
bookkeeping and returns early when the session has no entry; otherwise
clears the available slot and appends a used-discount record taken from the
order. -/
def mark_discount_code_used (session_id : String) (order : Order)
    (st : UnibloxRepository) : UnibloxRepository :=
  match dictGet st.discount_codes session_id with
  | none =>
    let dcs := dictSet st.discount_codes session_id ⟨none, []⟩
    { st with discount_codes := dcs }
  | some dd =>
    let used : UsedDiscount :=
      { order_id := order.order_id, discount_code := order.discount_code,
        discount_percent := order.discount_percent,
        discount_amount := order.discount_amount, timestamp := order.timestamp }
    let dcs := dictSet st.discount_codes session_id ⟨none, dd.used_discounts ++ [used]⟩
    { st with discount_codes := dcs }

/-- `UnibloxRepository.get_discount_code`: the available record, only when it
exists and its code matches exactly. -/
def get_discount_code (session_id discount_code : String)
    (st : UnibloxRepository) : Option Discount :=
  match dictGet st.discount_codes session_id with
  | none => none
  | some dd =>
    match dd.available_discount with
    | none => none
    | some d => if d.discount_code != discount_code then none else some d

/-- `UnibloxRepository.get_user_orders`. -/
def get_user_orders (session_id : String) (st : UnibloxRepository) : Option UserOrder :=
  dictGet st.orders session_id

/-- `UnibloxRepository.create_discount_code`: installs the given code only
when no available discount exists, and returns the code stored afterwards
(the pre-existing one when there was one). -/
def create_discount_code (session_id discount_code : String) (discount_percent : ℚ)
    (st : UnibloxRepository) : String × UnibloxRepository :=
  let dd := (dictGet st.discount_codes session_id).getD ⟨none, []⟩
  match dd.available_discount with
  | none =>
    let dd' : UserDiscountData :=
      { dd with available_discount := some ⟨discount_code, discount_percent⟩ }
    (discount_code, { st with discount_codes := dictSet st.discount_codes session_id dd' })
  | some d =>
    (d.discount_code, { st with discount_codes := dictSet st.discount_codes session_id dd })

/-- `UnibloxRepository.is_discount_already_used`. -/
def is_discount_already_used (session_id discount_code : String)
    (st : UnibloxRepository) : Bool :=
  match dictGet st.discount_codes session_id with
  | none => false
  | some dd => dd.used_discounts.any (fun u => u.discount_code == some discount_code)

/-- `UnibloxRepository.get_statistics`: a pure read of the store (the source
takes the order and discount locks but performs no write). -/
def get_statistics (st : UnibloxRepository) : AdminStoreStatisticsResponse :=
  let entries := st.orders.map (·.2)
  let total_orders := (entries.map (·.order_count)).sum
  let total_items := (entries.map (fun e => e.orders.length)).sum
  let orders := (entries.map (·.orders)).flatten
  let total_amount := (orders.map (·.total_amount)).sum
  let total_discount := (orders.map (·.discount_amount)).sum
  let avg_order_value := if total_orders ≠ 0 then total_amount / total_orders else 0
  let dds := st.discount_codes.map (·.2)
  let total_discounts : Nat :=
    (dds.map (fun d => (if d.available_discount.isSome then 1 else 0) + d.used_discounts.length)).sum
  let used_discounts : Nat := (dds.map (fun d => d.used_discounts.length)).sum
  let discount_codes :=
    dds.flatMap (fun d =>
      (match d.available_discount with
       | some a => [a.discount_code]
       | none => []) ++ d.used_discounts.filterMap (fun u => u.discount_code))
  let utilization_rate :=
    if 0 < total_discounts then (used_discounts : ℚ) / total_discounts * 100 else 0
  { total_orders := total_orders,
    total_items_purchased := total_items,
    total_purchase_amount := round2 total_amount,
    total_discount_amount := round2 total_discount,
    average_order_value := round2 avg_order_value,
    discount_utilization_rate := round2 utilization_rate,
    discount_codes := discount_codes }

end UnibloxRepository

/-- Checkout rejection reasons: the three `ValueError`s of
app/services/checkout_service.py (mapped to HTTP 400 by the router), plus
`Internal` for the unreachable attribute error on a `None` order (HTTP 500). -/
inductive CheckoutError where
  | EmptyCart
  | InvalidCode
  | AlreadyUsed
  | Internal
deriving DecidableEq

/-- The configuration values injected into `CheckoutService` from
app/config.py (`NTH_ORDER_DISCOUNT`, `DISCOUNT_PERCENTAGE`). -/
structure Config where
  nth_order : Nat
  discount_percentage : ℚ
deriving DecidableEq

namespace CheckoutService

open UnibloxRepository

/-- `CheckoutService._calculate_subtotal`. -/
def calculate_subtotal (items : List CartItem) : ℚ :=
  (items.map (fun item => item.price * (item.quantity : ℚ))).sum

/-- `CheckoutService._validate_and_apply_discount`: checks used history
first, then the available code, then computes the discount amount. -/
def validate_and_apply_discount (session_id discount_code : String) (subtotal : ℚ)
    (st : UnibloxRepository) : Except CheckoutError ℚ :=
  if is_discount_already_used session_id discount_code st then
    .error .AlreadyUsed
  else
    match get_discount_code session_id discount_code st with
    | none => .error .InvalidCode
    | some discount => .ok (subtotal * (discount.discount_percent / 100))

/-- `CheckoutService._check_and_generate_discount`: issues a code when the
session order count is a positive multiple of the nth-order threshold. -/
def check_and_generate_discount (cfg : Config) (session_id fresh_code : String)
    (st : UnibloxRepository) : Option String × UnibloxRepository :=
  match get_user_orders session_id st with
  | none => (none, st)
  | some user_order =>
    if user_order.order_count % cfg.nth_order = 0 ∧ 0 < user_order.order_count then
      let r := create_discount_code session_id fresh_code cfg.discount_percentage st
      (some r.1, r.2)
    else (none, st)

/-- `CheckoutService.process_checkout`.  The store returned alongside an
error is the global repository state at the moment the exception is raised. -/
def process_checkout (cfg : Config) (session_id : String) (discount_code : Option String)
    (fresh_code : String) (now : Nat) (st : UnibloxRepository) :
    Except CheckoutError CheckoutResponse × UnibloxRepository :=
  let items := get_cart session_id st
  if items.isEmpty then (.error .EmptyCart, st)
  else
    let subtotal := calculate_subtotal items
    let validated : Except CheckoutError ℚ :=
      if strTruthy discount_code then
        validate_and_apply_discount session_id (discount_code.getD "") subtotal st
      else .ok 0
    match validated with
    | .error e => (.error e, st)
    | .ok discount_amount =>
      let discount_applied := strTruthy discount_code
      let total_amount := subtotal - discount_amount
      match create_order session_id items subtotal discount_code discount_amount
          total_amount cfg.discount_percentage now st with
      | (none, st1) => (.error .Internal, st1)
      | (some order, st1) =>
        let st2 :=
          if discount_applied && strTruthy discount_code then
            mark_discount_code_used session_id order st1
          else st1
        let r := check_and_generate_discount cfg session_id fresh_code st2
        let new_discount_code := r.1
        let message :=
          match new_discount_code with
          | some c => "Order placed successfully! You\x27ve earned a discount code: " ++ c
          | none => "Order placed successfully!"
        let st4 := clear_cart session_id r.2
        (.ok { order_id := order.order_id,
               subtotal := round2 subtotal,
               discount_applied := discount_applied,
               discount_amount := round2 discount_amount,
               total_amount := round2 total_amount,
               new_discount_code := new_discount_code,
               message := message,
               timestamp := order.timestamp }, st4)

end CheckoutService

/-- One cart mutation of a session, as invoked through the HTTP surface. -/
inductive CartOp where
  | add (item : CartItem)
  | update (product_id : Nat) (quantity : Nat)
  | remove (product_id : Nat)
deriving DecidableEq

/-- Effect of one cart mutation on the store (the returned cart is dropped). -/
def applyCartOp (session_id : String) (st : UnibloxRepository) : CartOp → UnibloxRepository
  | .add item => (UnibloxRepository.add_to_cart session_id item st).2
  | .update product_id quantity =>
    (UnibloxRepository.update_cart_item session_id product_id quantity st).2
  | .remove product_id => (UnibloxRepository.remove_from_cart session_id product_id st).2

/-- Effect of a finite sequence of cart mutations on the store. -/
def runCartOps (session_id : String) (ops : List CartOp) (st : UnibloxRepository) :
    UnibloxRepository :=
  ops.foldl (applyCartOp session_id) st

/-- The session's authoritative order count (0 when the session never ordered). -/
def order_count_of (st : UnibloxRepository) (session_id : String) : Nat :=
  ((dictGet st.orders session_id).map UserOrder.order_count).getD 0

/-- The session's used-discount history (empty when no bookkeeping exists). -/
def used_history_of (st : UnibloxRepository) (session_id : String) : List UsedDiscount :=
  ((dictGet st.discount_codes session_id).map UserDiscountData.used_discounts).getD []

/-- The session's currently available discount record, if any. -/
def available_of (st : UnibloxRepository) (session_id : String) : Option Discount :=
  (dictGet st.discount_codes session_id).bind UserDiscountData.available_discount

/-- The code appears in the session's used-discount history. -/
def code_used_by (st : UnibloxRepository) (session_id code : String) : Prop :=
  ∃ u ∈ used_history_of st session_id, u.discount_code = some code

/-- All orders across all sessions, in store order. -/
def all_orders (st : UnibloxRepository) : List Order :=
  (st.orders.map (·.2)).flatMap UserOrder.orders

/-- Total order count across all sessions (sum of per-session counters). -/
def total_order_count (st : UnibloxRepository) : Nat :=
  ((st.orders.map (·.2)).map UserOrder.order_count).sum

/-- Number of used discounts across all sessions. -/
def used_discount_count (st : UnibloxRepository) : Nat :=
  ((st.discount_codes.map (·.2)).map (fun d => d.used_discounts.length)).sum

/-- Number of sessions currently holding an available discount code. -/
def available_discount_count (st : UnibloxRepository) : Nat :=
  ((st.discount_codes.map (·.2)).filter (fun d => d.available_discount.isSome)).length

section DictLemmas

theorem dictGet_dictSet_self {α : Type} (m : List (String × α)) (k : String) (v : α) :
    dictGet (dictSet m k v) k = some v := by
  induction m with
  | nil => simp [dictSet, dictGet]
  | cons p rest ih =>
    by_cases h : p.1 = k
    · simp [dictSet, dictGet, h]
    · simp [dictSet, dictGet, h, ih]

theorem dictSet_get_self {α : Type} {m : List (String × α)} {k : String} {v : α}
    (h : dictGet m k = some v) : dictSet m k v = m := by
  induction m with
  | nil => simp [dictGet] at h
  | cons p rest ih =>
    obtain ⟨k', v'⟩ := p
    by_cases hk : k' = k
    · simp [dictGet, hk] at h
      simp [dictSet, hk, h]
    · simp [dictGet, hk] at h
      simp [dictSet, hk, ih h]

end DictLemmas

section FrameLemmas

open UnibloxRepository CheckoutService

theorem mark_discount_code_used_orders (session_id : String) (o : Order)
    (st : UnibloxRepository) :
    (mark_discount_code_used session_id o st).orders = st.orders := by
  unfold mark_discount_code_used
  split <;> rfl

theorem mark_discount_code_used_carts (session_id : String) (o : Order)
    (st : UnibloxRepository) :
    (mark_discount_code_used session_id o st).carts = st.carts := by
  unfold mark_discount_code_used
  split <;> rfl

theorem create_discount_code_orders (session_id code : String) (percent : ℚ)
    (st : UnibloxRepository) :
    ((create_discount_code session_id code percent st).2).orders = st.orders := by
  simp only [create_discount_code]
  split <;> rfl

theorem check_and_generate_discount_orders (cfg : Config) (session_id fresh : String)
    (st : UnibloxRepository) :
    ((check_and_generate_discount cfg session_id fresh st).2).orders = st.orders := by
  unfold check_and_generate_discount
  split
  · rfl
  · split
    · exact create_discount_code_orders ..
    · rfl

theorem clear_cart_orders (session_id : String) (st : UnibloxRepository) :
    (clear_cart session_id st).orders = st.orders := rfl

end FrameLemmas

section CheckoutInversion

open UnibloxRepository CheckoutService

/-- Inversion of a successful `process_checkout` call: the cart was
non-empty, discount validation succeeded, an order was created, and every
field of the response and the final store are determined by the pipeline. -/
theorem process_checkout_ok_elim {cfg : Config} {session_id : String}
    {discount_code : Option String} {fresh_code : String} {now : Nat}
    {st : UnibloxRepository} {resp : CheckoutResponse} {st' : UnibloxRepository}
    (h : process_checkout cfg session_id discount_code fresh_code now st = (.ok resp, st')) :
    ∃ discount_amount order st1,
      (get_cart session_id st).isEmpty = false
      ∧ (if strTruthy discount_code then
           validate_and_apply_discount session_id (discount_code.getD "")
             (calculate_subtotal (get_cart session_id st)) st
         else .ok 0) = .ok discount_amount
      ∧ create_order session_id (get_cart session_id st)
          (calculate_subtotal (get_cart session_id st))
          discount_code discount_amount
          (calculate_subtotal (get_cart session_id st) - discount_amount)
          cfg.discount_percentage now st = (some order, st1)
      ∧ resp.order_id = order.order_id
      ∧ resp.subtotal = round2 (calculate_subtotal (get_cart session_id st))
      ∧ resp.discount_applied = strTruthy discount_code
      ∧ resp.discount_amount = round2 discount_amount
      ∧ resp.total_amount =
          round2 (calculate_subtotal (get_cart session_id st) - discount_amount)
      ∧ resp.new_discount_code =
          (check_and_generate_discount cfg session_id fresh_code
            (if strTruthy discount_code then mark_discount_code_used session_id order st1
             else st1)).1
      ∧ resp.timestamp = order.timestamp
      ∧ st' = clear_cart session_id
          (check_and_generate_discount cfg session_id fresh_code
            (if strTruthy discount_code then mark_discount_code_used session_id order st1
             else st1)).2 := by
  simp only [process_checkout, Bool.and_self] at h
  split at h
  · exact absurd h (by simp)
  · rename_i hempty
    split at h
    · exact absurd h (by simp)
    · rename_i damount heq
      split at h
      · exact absurd h (by simp)
      · rename_i order st1 heq2
        rw [Prod.mk.injEq] at h
        obtain ⟨h1, h2⟩ := h
        rw [Except.ok.injEq] at h1
        subst h1
        subst h2
        refine ⟨damount, order, st1, by simpa using hempty, heq, heq2,
          rfl, rfl, rfl, rfl, rfl, rfl, rfl, rfl⟩

/-- Inversion of a successful `create_order`: the order is the snapshot of
the inputs under a fresh id, and the session entry gains one order and one
count. -/
theorem create_order_elim {session_id : String} {items : List CartItem}
    {subtotal : ℚ} {dc : Option String} {damount total percent : ℚ} {now : Nat}
    {st : UnibloxRepository} {order : Order} {st1 : UnibloxRepository}
    (h : UnibloxRepository.create_order session_id items subtotal dc damount total
        percent now st = (some order, st1)) :
    order = { order_id := st.next_order_id, items := items, subtotal := subtotal,
              discount_code := dc, discount_amount := damount,
              total_amount := total, discount_percent := percent, timestamp := now }
    ∧ st1 = { st with
        orders := dictSet st.orders session_id
          ⟨((dictGet st.orders session_id).getD ⟨0, []⟩).order_count + 1,
           ((dictGet st.orders session_id).getD ⟨0, []⟩).orders ++ [order]⟩,
        next_order_id := st.next_order_id + 1 } := by
  simp only [UnibloxRepository.create_order] at h
  split at h
  · exact absurd h (by simp)
  · rw [Prod.mk.injEq] at h
    obtain ⟨h1, h2⟩ := h
    rw [Option.some.injEq] at h1
    subst h1
    subst h2
    exact ⟨rfl, rfl⟩

theorem getD_order_count (st : UnibloxRepository) (session_id : String) :
    ((dictGet st.orders session_id).getD ⟨0, []⟩).order_count =
      order_count_of st session_id := by
  unfold order_count_of
  cases dictGet st.orders session_id <;> rfl

end CheckoutInversion

section ClaimC2

open UnibloxRepository CheckoutService

/-- C2: every successful checkout increments the session's order count by
exactly 1, and the response carries a discount code if and only if the
post-increment count is strictly positive and divisible by the configured
nth-order threshold. -/
theorem checkout_order_count_and_discount_issuance
    (cfg : Config) (session_id : String) (discount_code : Option String)
    (fresh_code : String) (now : Nat) (st : UnibloxRepository)
    (resp : CheckoutResponse) (st' : UnibloxRepository)
    (_hN : 0 < cfg.nth_order)
    (h : process_checkout cfg session_id discount_code fresh_code now st
        = (.ok resp, st')) :
    order_count_of st' session_id = order_count_of st session_id + 1
    ∧ (resp.new_discount_code.isSome = true ↔
        (0 < order_count_of st' session_id
         ∧ order_count_of st' session_id % cfg.nth_order = 0)) := by
  obtain ⟨damount, order, st1, hemp, hval, hco, _, _, _, _, _, hnew, _, hst⟩ :=
    process_checkout_ok_elim h
  obtain ⟨horder, hst1⟩ := create_order_elim hco
  have hcnt1 : dictGet st1.orders session_id =
      some ⟨order_count_of st session_id + 1,
            ((dictGet st.orders session_id).getD ⟨0, []⟩).orders ++ [order]⟩ := by
    rw [hst1, getD_order_count]
    exact dictGet_dictSet_self ..
  have hstM : (if strTruthy discount_code then
      mark_discount_code_used session_id order st1 else st1).orders = st1.orders := by
    split
    · exact mark_discount_code_used_orders ..
    · rfl
  have hst'orders : st'.orders = st1.orders := by
    rw [hst, clear_cart_orders, check_and_generate_discount_orders, hstM]
  have h1 : order_count_of st' session_id = order_count_of st session_id + 1 := by
    unfold order_count_of
    rw [hst'orders, hcnt1]
    rfl
  refine ⟨h1, ?_⟩
  have hget : get_user_orders session_id (if strTruthy discount_code then
      mark_discount_code_used session_id order st1 else st1) =
      some ⟨order_count_of st session_id + 1,
            ((dictGet st.orders session_id).getD ⟨0, []⟩).orders ++ [order]⟩ := by
    unfold get_user_orders
    rw [hstM, hcnt1]
  rw [hnew, h1]
  simp only [check_and_generate_discount, hget]
  split
  · rename_i hc
    simp [hc.1, hc.2]
  · rename_i hc
    rw [Decidable.not_and_iff_or_not] at hc
    rcases hc with hc | hc
    · simp [hc]
    · exact absurd (Nat.succ_pos _) hc

end ClaimC2

section ClaimC1C3

open UnibloxRepository CheckoutService

theorem is_discount_already_used_iff (st : UnibloxRepository) (session_id code : String) :
    is_discount_already_used session_id code st = true ↔ code_used_by st session_id code := by
  unfold is_discount_already_used code_used_by used_history_of
  cases dictGet st.discount_codes session_id with
  | none => simp
  | some dd => simp [List.any_eq_true]

/-- C1: a code in the session's used-discount history is rejected with
AlreadyUsed by every checkout of that session supplying it, no matter what
code is currently available (the used-before check runs first); a non-empty
code that was never used and is not the currently available code is
rejected with InvalidCode. -/
theorem checkout_discount_code_rejection
    (cfg : Config) (st : UnibloxRepository) (session_id code fresh_code : String)
    (now : Nat)
    (hcart : get_cart session_id st ≠ [])
    (hcode : code ≠ "") :
    (code_used_by st session_id code →
      (process_checkout cfg session_id (some code) fresh_code now st).1
        = .error .AlreadyUsed)
    ∧ (¬ code_used_by st session_id code →
       (∀ d, available_of st session_id = some d → d.discount_code ≠ code) →
       (process_checkout cfg session_id (some code) fresh_code now st).1
         = .error .InvalidCode) := by
  have hemp : (get_cart session_id st).isEmpty = false := by
    simpa using hcart
  have htruthy : strTruthy (some code) = true := by
    simp [strTruthy, hcode]
  constructor
  · intro hused
    have hu : is_discount_already_used session_id code st = true :=
      (is_discount_already_used_iff ..).mpr hused
    simp only [process_checkout, hemp, htruthy, Bool.false_eq_true, if_false, if_true,
      validate_and_apply_discount, hu, Option.getD_some]
  · intro hunused havail
    have hu : is_discount_already_used session_id code st = false := by
      rcases hb : is_discount_already_used session_id code st with _ | _
      · rfl
      · exact absurd ((is_discount_already_used_iff ..).mp hb) hunused
    have hlook : get_discount_code session_id code st = none := by
      unfold get_discount_code
      rcases hd : dictGet st.discount_codes session_id with _ | dd
      · rfl
      · rcases ha : dd.available_discount with _ | d
        · simp [ha]
        · have hne : d.discount_code ≠ code := by
            apply havail
            unfold available_of
            rw [hd]
            simpa using ha
          simp [ha, hne]
    simp only [process_checkout, hemp, htruthy, Bool.false_eq_true, if_false, if_true,
      validate_and_apply_discount, hu, hlook, Option.getD_some]

/-- C3: a checkout rejected with EmptyCart, InvalidCode or AlreadyUsed
leaves the entire store state unchanged: no order, no count increment, the
cart and the discount records as they were. -/
theorem checkout_rejection_no_side_effects
    (cfg : Config) (session_id : String) (discount_code : Option String)
    (fresh_code : String) (now : Nat) (st : UnibloxRepository) (e : CheckoutError)
    (herr : (process_checkout cfg session_id discount_code fresh_code now st).1
      = .error e)
    (hkind : e = .EmptyCart ∨ e = .InvalidCode ∨ e = .AlreadyUsed) :
    (process_checkout cfg session_id discount_code fresh_code now st).2 = st := by
  rcases hemp : (get_cart session_id st).isEmpty with _ | _
  · rcases hval : (if strTruthy discount_code then
        validate_and_apply_discount session_id (discount_code.getD "")
          (calculate_subtotal (get_cart session_id st)) st
      else .ok 0) with e' | damount
    · simp [process_checkout, hemp, hval]
    · rcases hco : create_order session_id (get_cart session_id st)
          (calculate_subtotal (get_cart session_id st)) discount_code damount
          (calculate_subtotal (get_cart session_id st) - damount)
          cfg.discount_percentage now st with ⟨oo, st1⟩
      rcases oo with _ | order
      · simp [process_checkout, hemp, hval, hco] at herr
        subst herr
        rcases hkind with hk | hk | hk <;> simp at hk
      · simp [process_checkout, hemp, hval, hco] at herr
  · simp [process_checkout, hemp]

end ClaimC1C3

/-- The most recently persisted order of a session, if any. -/
def persisted_last_order (st : UnibloxRepository) (session_id : String) : Option Order :=
  (dictGet st.orders session_id).bind (fun uo => uo.orders.getLast?)

section ClaimC7C10

open UnibloxRepository CheckoutService

/-- C7: a successful checkout computes subtotal as the sum of price times
quantity over the cart lines, discount_amount as subtotal times percent/100
under a valid code and 0 without a code, and total as subtotal minus
discount_amount, reporting all three rounded to 2 decimal places. -/
theorem checkout_totals_arithmetic
    (cfg : Config) (session_id : String) (discount_code : Option String)
    (fresh_code : String) (now : Nat) (st : UnibloxRepository)
    (resp : CheckoutResponse) (st' : UnibloxRepository)
    (h : process_checkout cfg session_id discount_code fresh_code now st
        = (.ok resp, st')) :
    resp.subtotal
      = round2 (((get_cart session_id st).map
          (fun i => i.price * (i.quantity : ℚ))).sum)
    ∧ (strTruthy discount_code = false →
        resp.discount_amount = 0 ∧ resp.total_amount = resp.subtotal)
    ∧ (∀ c, discount_code = some c → c ≠ "" →
        ∃ d, get_discount_code session_id c st = some d
          ∧ resp.discount_amount
              = round2 (calculate_subtotal (get_cart session_id st)
                        * (d.discount_percent / 100))
          ∧ resp.total_amount
              = round2 (calculate_subtotal (get_cart session_id st)
                        - calculate_subtotal (get_cart session_id st)
                          * (d.discount_percent / 100))) := by
  obtain ⟨damount, order, st1, hemp, hval, hco, _, hsub, _, hdam, htot, _, _, _⟩ :=
    process_checkout_ok_elim h
  refine ⟨hsub, ?_, ?_⟩
  · intro hfalse
    rw [hfalse] at hval
    simp only [Bool.false_eq_true, if_false, Except.ok.injEq] at hval
    subst hval
    constructor
    · rw [hdam]
      exact round2_zero
    · rw [htot, sub_zero, hsub]
  · intro c hc hne
    subst hc
    have htruthy : strTruthy (some c) = true := by simp [strTruthy, hne]
    rw [htruthy] at hval
    simp only [if_true, Option.getD_some] at hval
    unfold validate_and_apply_discount at hval
    split at hval
    · exact absurd hval (by simp)
    · split at hval
      · exact absurd hval (by simp)
      · rename_i d hlook
        rw [Except.ok.injEq] at hval
        subst hval
        exact ⟨d, hlook, hdam, htot⟩

/-- C10: a successful checkout without a discount code persists an order
whose discount_code is none and discount_amount is 0, while its
discount_percent field still carries the configured percentage; the
response reports no discount applied.  Hence discount_percent alone does
not indicate whether a discount was used. -/
theorem checkout_no_code_order_fields
    (cfg : Config) (session_id fresh_code : String) (now : Nat)
    (st : UnibloxRepository) (resp : CheckoutResponse) (st' : UnibloxRepository)
    (h : process_checkout cfg session_id none fresh_code now st = (.ok resp, st')) :
    (persisted_last_order st' session_id).map Order.discount_code = some none
    ∧ (persisted_last_order st' session_id).map Order.discount_amount = some 0
    ∧ (persisted_last_order st' session_id).map Order.discount_percent
        = some cfg.discount_percentage
    ∧ resp.discount_applied = false := by
  obtain ⟨damount, order, st1, hemp, hval, hco, _, _, happ, _, _, _, _, hst⟩ :=
    process_checkout_ok_elim h
  simp only [strTruthy, Bool.false_eq_true, if_false, Except.ok.injEq] at hval
  subst hval
  obtain ⟨horder, hst1⟩ := create_order_elim hco
  have hcnt1 : dictGet st1.orders session_id =
      some ⟨((dictGet st.orders session_id).getD ⟨0, []⟩).order_count + 1,
            ((dictGet st.orders session_id).getD ⟨0, []⟩).orders ++ [order]⟩ := by
    rw [hst1]
    exact dictGet_dictSet_self ..
  have hst'orders : st'.orders = st1.orders := by
    rw [hst, clear_cart_orders, check_and_generate_discount_orders]
    split
    · exact mark_discount_code_used_orders ..
    · rfl
  have hlast : persisted_last_order st' session_id = some order := by
    unfold persisted_last_order
    rw [hst'orders, hcnt1]
    simp [List.getLast?_concat]
  refine ⟨?_, ?_, ?_, happ⟩ <;> rw [hlast, horder] <;> rfl

end ClaimC7C10

section ClaimC6

open UnibloxRepository

/-- C6: while a session holds an available discount code, issuing again
returns the stored code and leaves the store unchanged; consequently two
consecutive issue calls without an intervening consume agree. -/
theorem create_discount_code_idempotent
    (st : UnibloxRepository) (session_id code code2 : String) (percent percent2 : ℚ) :
    (∀ d, available_of st session_id = some d →
      create_discount_code session_id code percent st = (d.discount_code, st))
    ∧ (create_discount_code session_id code2 percent2
        (create_discount_code session_id code percent st).2).1
      = (create_discount_code session_id code percent st).1 := by
  constructor
  · intro d hd
    rcases hg : dictGet st.discount_codes session_id with _ | dd
    · unfold available_of at hd
      rw [hg] at hd
      simp at hd
    · have ha : dd.available_discount = some d := by
        unfold available_of at hd
        rw [hg] at hd
        simpa using hd
      simp only [create_discount_code, hg, Option.getD_some, ha]
      rw [dictSet_get_self hg]
  · rcases hg : dictGet st.discount_codes session_id with _ | dd
    · simp only [create_discount_code, hg, Option.getD_none, Option.getD_some,
        dictGet_dictSet_self]
    · rcases ha : dd.available_discount with _ | d
      · simp only [create_discount_code, hg, Option.getD_some, ha,
          dictGet_dictSet_self]
      · simp only [create_discount_code, hg, Option.getD_some, ha,
          dictGet_dictSet_self]

end ClaimC6

section ClaimC4

open UnibloxRepository

/-- C4 (amended): `remove_from_cart` reports NotFound only when the session
has no cart at all; when a cart exists the operation always succeeds,
returning the cart with every line of the given product id deleted, and in
particular removing an absent product id succeeds and changes nothing. -/
theorem remove_from_cart_characterization
    (st : UnibloxRepository) (session_id : String) (product_id : Nat) :
    (dictGet st.carts session_id = none →
      remove_from_cart session_id product_id st = (none, st))
    ∧ (∀ cart, dictGet st.carts session_id = some cart →
        (remove_from_cart session_id product_id st).1
          = some (cart.filter (fun i => i.product_id != product_id))
        ∧ (product_id ∉ cart.map CartItem.product_id →
            remove_from_cart session_id product_id st = (some cart, st))) := by
  constructor
  · intro hg
    simp only [remove_from_cart, hg]
  · intro cart hg
    constructor
    · simp only [remove_from_cart, hg]
    · intro hmem
      have hfilter : cart.filter (fun i => i.product_id != product_id) = cart := by
        apply List.filter_eq_self.mpr
        intro a ha
        simp only [bne_iff_ne, ne_eq, decide_eq_true_eq]
        intro hc
        exact hmem (hc ▸ List.mem_map_of_mem CartItem.product_id ha)
      simp only [remove_from_cart, hg, hfilter, dictSet_get_self hg]

/-- A store whose session `s` has a cart holding only product id 1. -/
def c4_store : UnibloxRepository :=
  { carts := [("s", [⟨1, "Widget", 100, 1⟩])], orders := [], discount_codes := [],
    next_order_id := 0 }

/-- C4 counterexample: the cart of session `s` exists and does not contain
product id 2, yet removing product id 2 succeeds (returns the cart) instead
of failing with NotFound. -/
theorem remove_from_cart_absent_succeeds :
    dictGet c4_store.carts "s" = some [⟨1, "Widget", 100, 1⟩]
    ∧ (2 ∉ [(⟨1, "Widget", 100, 1⟩ : CartItem)].map CartItem.product_id)
    ∧ (remove_from_cart "s" 2 c4_store).1 = some [⟨1, "Widget", 100, 1⟩] := by
  refine ⟨rfl, by decide, rfl⟩

end ClaimC4

section ClaimC5

open UnibloxRepository

/-- C5 (amended): when the session has no discount bookkeeping entry at
all, consume only installs the empty bookkeeping state and appends nothing;
but when an entry exists — even with no available code — consume clears the
available slot and appends a used-discount record built from the order.
Carts and orders are never touched. -/
theorem mark_discount_code_used_characterization
    (st : UnibloxRepository) (session_id : String) (o : Order) :
    (dictGet st.discount_codes session_id = none →
      mark_discount_code_used session_id o st
        = { st with discount_codes := dictSet st.discount_codes session_id ⟨none, []⟩ }
      ∧ used_history_of (mark_discount_code_used session_id o st) session_id = []
      ∧ available_of (mark_discount_code_used session_id o st) session_id = none)
    ∧ (∀ dd, dictGet st.discount_codes session_id = some dd →
        used_history_of (mark_discount_code_used session_id o st) session_id
          = dd.used_discounts
            ++ [⟨o.order_id, o.discount_code, o.discount_percent, o.discount_amount,
                 o.timestamp⟩]
        ∧ available_of (mark_discount_code_used session_id o st) session_id = none)
    ∧ (mark_discount_code_used session_id o st).carts = st.carts
    ∧ (mark_discount_code_used session_id o st).orders = st.orders := by
  refine ⟨?_, ?_, mark_discount_code_used_carts .., mark_discount_code_used_orders ..⟩
  · intro hg
    simp only [mark_discount_code_used, hg]
    refine ⟨trivial, ?_, ?_⟩
    · unfold used_history_of
      simp only [mark_discount_code_used, hg, dictGet_dictSet_self]
      rfl
    · unfold available_of
      simp only [mark_discount_code_used, hg, dictGet_dictSet_self]
      rfl
  · intro dd hg
    constructor
    · unfold used_history_of
      simp only [mark_discount_code_used, hg, dictGet_dictSet_self]
      rfl
    · unfold available_of
      simp only [mark_discount_code_used, hg, dictGet_dictSet_self]
      rfl

/-- A store whose session `s` has discount bookkeeping with no available
code and empty used history. -/
def c5_store : UnibloxRepository :=
  { carts := [], orders := [], discount_codes := [("s", ⟨none, []⟩)],
    next_order_id := 0 }

/-- An order carrying a discount code, as `mark_discount_code_used` would
receive from a checkout. -/
def c5_order : Order :=
  { order_id := 1, items := [⟨1, "Widget", 100, 1⟩], subtotal := 100,
    discount_code := some "SAVE10AAAA1111", discount_amount := 10,
    discount_percent := 10, total_amount := 90, timestamp := 0 }

/-- C5 counterexample: session `s` has no available discount record, yet
consume appends a used-discount entry instead of being a no-op. -/
theorem mark_discount_code_used_appends_without_available :
    available_of c5_store "s" = none
    ∧ used_history_of c5_store "s" = []
    ∧ used_history_of (mark_discount_code_used "s" c5_order c5_store) "s"
        = [⟨1, some "SAVE10AAAA1111", 10, 10, 0⟩] := by
  refine ⟨rfl, rfl, rfl⟩

end ClaimC5

section ClaimC8

open UnibloxRepository

theorem addItemToList_ids (cart : List CartItem) (item : CartItem) :
    (addItemToList cart item).map CartItem.product_id =
      if item.product_id ∈ cart.map CartItem.product_id then
        cart.map CartItem.product_id
      else cart.map CartItem.product_id ++ [item.product_id] := by
  induction cart with
  | nil => simp [addItemToList]
  | cons c rest ih =>
    by_cases hc : c.product_id = item.product_id
    · simp [addItemToList, hc]
    · by_cases hm : item.product_id ∈ rest.map CartItem.product_id
      · simp [addItemToList, hc, hm, ih, Ne.symm hc]
      · simp [addItemToList, hc, hm, ih, Ne.symm hc]

theorem addItemToList_merge {cart : List CartItem} {item : CartItem}
    (hnodup : (cart.map CartItem.product_id).Nodup)
    (hmem : item.product_id ∈ cart.map CartItem.product_id) :
    addItemToList cart item = cart.map (fun c =>
      if c.product_id = item.product_id then
        { c with quantity := c.quantity + item.quantity }
      else c) := by
  induction cart with
  | nil => simp at hmem
  | cons c rest ih =>
    by_cases hc : c.product_id = item.product_id
    · have hnot : item.product_id ∉ rest.map CartItem.product_id := by
        rw [← hc]
        exact (List.nodup_cons.mp (by simpa using hnodup)).1
      have hrest : rest.map (fun c =>
          if c.product_id = item.product_id then
            { c with quantity := c.quantity + item.quantity }
          else c) = rest := by
        apply List.map_congr_left ?_ |>.trans (List.map_id rest)
        intro a ha
        have : a.product_id ≠ item.product_id := by
          intro he
          exact hnot (he ▸ List.mem_map_of_mem CartItem.product_id ha)
        simp [this]
      simp [addItemToList, hc, hrest]
    · have hm : item.product_id ∈ rest.map CartItem.product_id := by
        rcases (by simpa using hmem : item.product_id = c.product_id
            ∨ item.product_id ∈ rest.map CartItem.product_id) with he | hm
        · exact absurd he.symm hc
        · exact hm
      simp [addItemToList, hc, ih (List.nodup_cons.mp (by simpa using hnodup)).2 hm]

theorem addItemToList_append {cart : List CartItem} {item : CartItem}
    (hmem : item.product_id ∉ cart.map CartItem.product_id) :
    addItemToList cart item = cart ++ [item] := by
  induction cart with
  | nil => simp [addItemToList]
  | cons c rest ih =>
    have hc : c.product_id ≠ item.product_id := by
      intro he
      exact hmem (by simp [he])
    have hrest : item.product_id ∉ rest.map CartItem.product_id := by
      intro hm
      exact hmem (by simp [hm])
    simp [addItemToList, hc, ih hrest]

theorem updateItemInList_ids {cart cart' : List CartItem} {product_id quantity : Nat}
    (h : updateItemInList cart product_id quantity = some cart') :
    cart'.map CartItem.product_id = cart.map CartItem.product_id := by
  induction cart generalizing cart' with
  | nil => simp [updateItemInList] at h
  | cons c rest ih =>
    by_cases hc : c.product_id = product_id
    · simp only [updateItemInList, hc, if_true, Option.some.injEq] at h
      subst h
      simp [hc]
    · simp only [updateItemInList, hc, if_false, Option.map_eq_some'] at h
      obtain ⟨l', hl', heq⟩ := h
      subst heq
      simp [ih hl']

theorem get_cart_add_to_cart (session_id : String) (item : CartItem)
    (st : UnibloxRepository) :
    get_cart session_id ((add_to_cart session_id item st).2)
      = addItemToList (get_cart session_id st) item := by
  simp [add_to_cart, get_cart, dictGet_dictSet_self]

theorem applyCartOp_nodup (session_id : String) (st : UnibloxRepository) (op : CartOp)
    (h : ((get_cart session_id st).map CartItem.product_id).Nodup) :
    ((get_cart session_id (applyCartOp session_id st op)).map CartItem.product_id).Nodup := by
  cases op with
  | add item =>
    show ((get_cart session_id ((add_to_cart session_id item st).2)).map
      CartItem.product_id).Nodup
    rw [get_cart_add_to_cart, addItemToList_ids]
    split
    · exact h
    · rename_i hm
      rw [List.nodup_append]
      exact ⟨h, List.nodup_singleton _, by simpa [List.disjoint_singleton] using hm⟩
  | update product_id quantity =>
    show ((get_cart session_id ((update_cart_item session_id product_id quantity st).2)).map
      CartItem.product_id).Nodup
    rcases hg : dictGet st.carts session_id with _ | cart
    · simpa [update_cart_item, hg] using h
    · rcases hu : updateItemInList cart product_id quantity with _ | cart'
      · simpa [update_cart_item, hg, hu] using h
      · have hcart : get_cart session_id st = cart := by
          simp [get_cart, hg]
        simp only [update_cart_item, hg, hu, get_cart, dictGet_dictSet_self,
          Option.getD_some]
        rw [updateItemInList_ids hu, ← hcart]
        exact h
  | remove product_id =>
    show ((get_cart session_id ((remove_from_cart session_id product_id st).2)).map
      CartItem.product_id).Nodup
    rcases hg : dictGet st.carts session_id with _ | cart
    · simpa [remove_from_cart, hg] using h
    · have hcart : get_cart session_id st = cart := by
        simp [get_cart, hg]
      simp only [remove_from_cart, hg, get_cart, dictGet_dictSet_self, Option.getD_some]
      exact ((List.filter_sublist cart).map CartItem.product_id).nodup (hcart ▸ h)

/-- C8: starting from a cart with unique product ids (in particular the
empty cart), any finite sequence of add/update/remove operations preserves
uniqueness of product ids; moreover add merges quantity into the existing
line — leaving its price and name unchanged — when the product id is
already present, and appends a new line otherwise. -/
theorem cart_unique_ids_and_add_merge
    (session_id : String) (ops : List CartOp) (st : UnibloxRepository)
    (h : ((get_cart session_id st).map CartItem.product_id).Nodup) :
    ((get_cart session_id (runCartOps session_id ops st)).map CartItem.product_id).Nodup
    ∧ (∀ cart item, (cart.map CartItem.product_id).Nodup →
        (item.product_id ∈ cart.map CartItem.product_id →
          addItemToList cart item = cart.map (fun c =>
            if c.product_id = item.product_id then
              { c with quantity := c.quantity + item.quantity }
            else c))
        ∧ (item.product_id ∉ cart.map CartItem.product_id →
          addItemToList cart item = cart ++ [item])) := by
  constructor
  · induction ops generalizing st with
    | nil => exact h
    | cons op rest ih => exact ih _ (applyCartOp_nodup session_id st op h)
  · intro cart item hnodup
    exact ⟨fun hmem => addItemToList_merge hnodup hmem,
           fun hmem => addItemToList_append hmem⟩

end ClaimC8

section ClaimC9

open UnibloxRepository

theorem sum_indicator_add_length (dds : List UserDiscountData) :
    (dds.map (fun d =>
      (if d.available_discount.isSome then 1 else 0) + d.used_discounts.length)).sum
      = (dds.map (fun d => d.used_discounts.length)).sum
        + (dds.filter (fun d => d.available_discount.isSome)).length := by
  induction dds with
  | nil => rfl
  | cons d rest ih =>
    simp only [List.map_cons, List.sum_cons, List.filter_cons]
    cases h : d.available_discount.isSome <;> simp [h, ih] <;> omega

/-- C9: the statistics report computes average_order_value as the sum of
all order totals divided by the total order count (0 with no orders) and
discount_utilization_rate as used / (used + available) * 100 (0 when no
discount was ever issued), each rounded to 2 decimals as every externally
visible monetary value is; the operation is a pure read of the store (its
translation takes the store and returns only a report). -/
theorem get_statistics_formulas (st : UnibloxRepository) :
    (get_statistics st).average_order_value
      = round2 (if total_order_count st = 0 then 0
          else ((all_orders st).map Order.total_amount).sum / (total_order_count st : ℚ))
    ∧ (get_statistics st).discount_utilization_rate
      = round2 (if used_discount_count st + available_discount_count st = 0 then 0
          else (used_discount_count st : ℚ)
               / ((used_discount_count st : ℚ) + (available_discount_count st : ℚ))
               * 100) := by
  constructor
  · have hproj : (get_statistics st).average_order_value
        = round2 (if ((st.orders.map (·.2)).map (·.order_count)).sum ≠ 0
            then (((st.orders.map (·.2)).map (·.orders)).flatten.map
                    (·.total_amount)).sum
                 / ((((st.orders.map (·.2)).map (·.order_count)).sum : ℕ) : ℚ)
            else 0) := rfl
    rw [hproj]
    have hall : ((all_orders st).map Order.total_amount).sum
        = (((st.orders.map (·.2)).map (·.orders)).flatten.map (·.total_amount)).sum := by
      simp only [all_orders, List.flatMap_def]
    rw [hall]
    have hcnt : total_order_count st = ((st.orders.map (·.2)).map (·.order_count)).sum := rfl
    rw [hcnt]
    rcases eq_or_ne ((st.orders.map (·.2)).map (·.order_count)).sum 0 with h0 | h0
    · rw [if_neg (not_not_intro h0), if_pos h0]
    · rw [if_pos h0, if_neg h0]
  · have hproj : (get_statistics st).discount_utilization_rate
        = round2 (if 0 < ((st.discount_codes.map (·.2)).map (fun d =>
                (if d.available_discount.isSome then 1 else 0)
                + d.used_discounts.length)).sum
            then ((((st.discount_codes.map (·.2)).map
                    (fun d => d.used_discounts.length)).sum : ℕ) : ℚ)
                 / ((((st.discount_codes.map (·.2)).map (fun d =>
                      (if d.available_discount.isSome then 1 else 0)
                      + d.used_discounts.length)).sum : ℕ) : ℚ) * 100
            else 0) := rfl
    rw [hproj, sum_indicator_add_length]
    have hu : used_discount_count st
        = ((st.discount_codes.map (·.2)).map (fun d => d.used_discounts.length)).sum := rfl
    have ha : available_discount_count st
        = ((st.discount_codes.map (·.2)).filter
            (fun d => d.available_discount.isSome)).length := rfl
    rw [hu, ha]
    rcases eq_or_ne (((st.discount_codes.map (·.2)).map
          (fun d => d.used_discounts.length)).sum
        + ((st.discount_codes.map (·.2)).filter
            (fun d => d.available_discount.isSome)).length) 0 with h0 | h0
    · rw [if_neg (by omega), if_pos h0]
    · rw [if_pos (Nat.pos_of_ne_zero h0), if_neg h0, Nat.cast_add]

end ClaimC9

section Witnesses

attribute [local semireducible] Rat.add Rat.sub Rat.mul Rat.inv

open UnibloxRepository CheckoutService

/-- A store whose session `s` has a one-item cart, an available code C1 and
a used code USED. -/
def w1_store : UnibloxRepository :=
  { carts := [("s", [⟨1, "P", 100, 1⟩])], orders := [],
    discount_codes := [("s", ⟨some ⟨"C1", 10⟩, [⟨0, some "USED", 10, 10, 0⟩]⟩)],
    next_order_id := 0 }

/-- The configuration of app/config.py: threshold 7, 10 percent. -/
def default_cfg : Config := { nth_order := 7, discount_percentage := 10 }

/-- Witness for C1: checking out with the consumed code USED is rejected
with AlreadyUsed. -/
theorem checkout_discount_code_rejection_witness :
    (process_checkout default_cfg "s" (some "USED") "F" 0 w1_store).1
      = .error .AlreadyUsed :=
  (checkout_discount_code_rejection default_cfg w1_store "s" "USED" "F" 0
    (by decide) (by decide)).1 (by unfold code_used_by; decide)

def w2_cfg : Config := { nth_order := 3, discount_percentage := 10 }

/-- A store whose session `s` has a one-item cart and two prior orders. -/
def w2_store : UnibloxRepository :=
  { carts := [("s", [⟨1, "P", 100, 1⟩])], orders := [("s", ⟨2, []⟩)],
    discount_codes := [], next_order_id := 0 }

def w2_resp : CheckoutResponse :=
  ⟨0, 100, false, 0, 100, some "F",
   "Order placed successfully! You\x27ve earned a discount code: F", 0⟩

def w2_store' : UnibloxRepository :=
  { carts := [],
    orders := [("s", ⟨3, [⟨0, [⟨1, "P", 100, 1⟩], 100, none, 0, 10, 100, 0⟩]⟩)],
    discount_codes := [("s", ⟨some ⟨"F", 10⟩, []⟩)], next_order_id := 1 }

/-- Witness for C2: the third order under threshold 3 bumps the count from
2 to 3 and earns a code. -/
theorem checkout_order_count_witness :
    order_count_of w2_store' "s" = order_count_of w2_store "s" + 1
    ∧ ((w2_resp.new_discount_code.isSome = true) ↔
        (0 < order_count_of w2_store' "s"
         ∧ order_count_of w2_store' "s" % w2_cfg.nth_order = 0)) :=
  checkout_order_count_and_discount_issuance w2_cfg "s" none "F" 0 w2_store
    w2_resp w2_store' (by decide) rfl

/-- The empty store. -/
def empty_store : UnibloxRepository :=
  { carts := [], orders := [], discount_codes := [], next_order_id := 0 }

/-- Witness for C3: an EmptyCart rejection leaves the store unchanged. -/
theorem checkout_rejection_witness :
    (process_checkout default_cfg "s" none "F" 0 empty_store).2 = empty_store :=
  checkout_rejection_no_side_effects default_cfg "s" none "F" 0 empty_store
    .EmptyCart rfl (Or.inl rfl)

/-- Witness for C4 (amended): removing the absent product id 2 from the
existing cart of session `s` succeeds and changes nothing. -/
theorem remove_from_cart_characterization_witness :
    remove_from_cart "s" 2 c4_store = (some [⟨1, "Widget", 100, 1⟩], c4_store) :=
  ((remove_from_cart_characterization c4_store "s" 2).2
    [⟨1, "Widget", 100, 1⟩] rfl).2 (by decide)

/-- Witness for C5 (amended): with bookkeeping present and no available
code, consume appends a used-discount record and clears nothing else. -/
theorem mark_discount_code_used_characterization_witness :
    used_history_of (mark_discount_code_used "s" c5_order c5_store) "s"
      = [⟨1, some "SAVE10AAAA1111", 10, 10, 0⟩]
    ∧ available_of (mark_discount_code_used "s" c5_order c5_store) "s" = none := by
  have t := (mark_discount_code_used_characterization c5_store "s" c5_order).2.1
    ⟨none, []⟩ rfl
  exact ⟨t.1.trans (by decide), t.2⟩

/-- A store whose session `s` holds the available code OLD. -/
def w6_store : UnibloxRepository :=
  { carts := [], orders := [],
    discount_codes := [("s", ⟨some ⟨"OLD", 10⟩, []⟩)], next_order_id := 0 }

/-- Witness for C6: issuing NEW while OLD is available returns OLD and
leaves the store unchanged. -/
theorem create_discount_code_idempotent_witness :
    create_discount_code "s" "NEW" 10 w6_store = ("OLD", w6_store) :=
  (create_discount_code_idempotent w6_store "s" "NEW" "NEW2" 10 10).1
    ⟨"OLD", 10⟩ (by decide)

/-- A store whose session `s` has one cart line at price 100, quantity 2. -/
def w7_store : UnibloxRepository :=
  { carts := [("s", [⟨1, "P", 100, 2⟩])], orders := [], discount_codes := [],
    next_order_id := 0 }

def w7_resp : CheckoutResponse :=
  ⟨0, 200, false, 0, 200, none, "Order placed successfully!", 0⟩

def w7_store' : UnibloxRepository :=
  { carts := [],
    orders := [("s", ⟨1, [⟨0, [⟨1, "P", 100, 2⟩], 200, none, 0, 10, 200, 0⟩]⟩)],
    discount_codes := [], next_order_id := 1 }

/-- Witness for C7: the spec scenario — one line at 100.00 x 2, no code —
yields subtotal 200.00, discount 0.00, total 200.00. -/
theorem checkout_totals_arithmetic_witness :
    w7_resp.subtotal = 200 ∧ w7_resp.discount_amount = 0
    ∧ w7_resp.total_amount = 200 := by
  have t := checkout_totals_arithmetic default_cfg "s" none "F" 0 w7_store
    w7_resp w7_store' rfl
  exact ⟨t.1.trans (by decide), (t.2.1 rfl).1,
    ((t.2.1 rfl).2).trans (t.1.trans (by decide))⟩

def w8_ops : List CartOp :=
  [.add ⟨1, "P", 100, 1⟩, .add ⟨1, "P", 100, 2⟩, .add ⟨2, "Q", 50, 1⟩,
   .update 1 5, .remove 2]

/-- Witness for C8: a concrete add/add/add/update/remove run from the
empty cart keeps product ids unique. -/
theorem cart_unique_ids_witness :
    ((get_cart "s" (runCartOps "s" w8_ops empty_store)).map
      CartItem.product_id).Nodup :=
  (cart_unique_ids_and_add_merge "s" w8_ops empty_store (by decide)).1

/-- A store whose session `s` has a one-item cart and no other state. -/
def w10_store : UnibloxRepository :=
  { carts := [("s", [⟨1, "P", 100, 1⟩])], orders := [], discount_codes := [],
    next_order_id := 0 }

def w10_resp : CheckoutResponse :=
  ⟨0, 100, false, 0, 100, none, "Order placed successfully!", 0⟩

def w10_store' : UnibloxRepository :=
  { carts := [],
    orders := [("s", ⟨1, [⟨0, [⟨1, "P", 100, 1⟩], 100, none, 0, 10, 100, 0⟩]⟩)],
    discount_codes := [], next_order_id := 1 }

/-- Witness for C10: a codeless checkout persists discount_code none,
discount_amount 0 and discount_percent 10 (the configured value). -/
theorem checkout_no_code_order_fields_witness :
    (persisted_last_order w10_store' "s").map Order.discount_code = some none
    ∧ (persisted_last_order w10_store' "s").map Order.discount_amount = some 0
    ∧ (persisted_last_order w10_store' "s").map Order.discount_percent
        = some default_cfg.discount_percentage
    ∧ w10_resp.discount_applied = false :=
  checkout_no_code_order_fields default_cfg "s" "F" 0 w10_store w10_resp
    w10_store' rfl

end Witnesses
